import Mathlib

/-!
Shallow embedding of the iot-dashboard repository's streaming aggregation
core: the `Dashboard` client component (src/unnamed/part_000) and the
`/api/sensors` route handler (src/app/api/sensors/route.ts).

JavaScript numbers are modelled as rationals (ℚ) with NaN carried
explicitly where it can arise; a numeric field distinguishes an actual
number, an explicit `null` and `undefined` (omitted field), because
`undefined !== null` makes the distinction observable in the stats
filters. The two locale formatting calls (`toLocaleString` /
`toLocaleTimeString`) are opaque formatting parameters passed explicitly,
since no claim depends on their output.
-/

namespace IotDashboard

/-- A JavaScript numeric slot: an actual number, an explicit `null`, or
`undefined` (the value of an omitted object field). The distinction
matters because `undefined !== null` is true, so the client's
`!== null` filter keeps omitted metrics, which then poison
`Math.min`/`Math.max`/`+` into NaN. -/
inductive JsNum
  | num (q : ℚ)
  | null
  | undef
deriving DecidableEq, Repr

/-- ToNumber coercion as applied by `Math.min`/`Math.max` arguments and by
binary `+`: a number stays itself, `null` coerces to `0`, `undefined`
coerces to NaN (modelled `none`). -/
def toNumber : JsNum → Option ℚ
  | .num q => some q
  | .null => some 0
  | .undef => none

/-- The genuinely numeric (present) content of a slot: `null` and
`undefined` are both absent per the spec's `number | absent` data model. -/
def asNum : JsNum → Option ℚ
  | .num q => some q
  | _ => none

/-- The `SensorData` interface (part_000 lines 17–24): one normalized telemetry reading.
`temperature`/`humidity` are declared `number | null` but at runtime also
carry `undefined` when the source payload or store row omitted the field,
so they are `JsNum`; `light_value` and `time` are declared non-null in the
TS interface, but the API placeholder object (route.ts line 68) omits
them, so they are `Option` here with `some` on every path that sets them
(`light_value` never meets a `!== null` filter, so collapsing its null and
undefined into `none` is harmless: both fail `=== 0` and are falsy). -/
structure SensorData where
  temperature : JsNum
  humidity : JsNum
  light_status : String
  light_value : Option ℚ
  timestamp : String
  time : Option String
deriving DecidableEq, Repr

/-- One displayed statistic: `noData` models the client's `'--'` dash and
the route's `null` sentinel, `nan` the `"NaN"` string that `toFixed(1)`
renders for NaN, `val q` a numeric result rounded via `toFixed(1)`. -/
inductive StatVal
  | noData
  | nan
  | val (q : ℚ)
deriving DecidableEq, Repr

/-- One metric's stats object. -/
structure MetricStats where
  min : StatVal
  max : StatVal
  avg : StatVal
deriving DecidableEq, Repr

/-- The `Stats` interface (part_000 lines 26–29 / route.ts lines 54–65). -/
structure Stats where
  temp : MetricStats
  humidity : MetricStats
deriving DecidableEq, Repr

/-- JavaScript `arr.slice(-n)`: the last `min n arr.length` elements. -/
def takeLast (n : ℕ) (l : List α) : List α := (l.reverse.take n).reverse

/-- One chart-data update (part_000 line 119):
`[...prev, newData].slice(-100)`. -/
def appendWindow (prev : List SensorData) (s : SensorData) : List SensorData :=
  takeLast 100 (prev ++ [s])

/-- The window obtained by running every append of `msgs`, in order,
starting from the initial empty `chartData` (part_000 line 42). -/
def windowFold (msgs : List SensorData) : List SensorData :=
  msgs.foldl appendWindow []

/-! ### Stats (part_000 lines 52–68, route.ts lines 51–65) -/

/-- JavaScript `x.toFixed(1)` on an actual number, in the rational model:
round to one decimal place, ties toward the larger result, per the
ECMAScript `toFixed` rule of picking the larger `n` when `n / 10 - x` is
tied. -/
def toFixed1 (q : ℚ) : ℚ := (⌊10 * q + 1 / 2⌋ : ℚ) / 10

/-- A binary arithmetic primitive lifted to NaN-propagating JS numbers:
NaN (modelled `none`) on either side is absorbing, as for `Math.min`,
`Math.max` and `+` in JavaScript. -/
def nanLift (g : ℚ → ℚ → ℚ) : Option ℚ → Option ℚ → Option ℚ
  | some x, some y => some (g x y)
  | _, _ => none

/-- JavaScript `Math.min(x, ...xs)`: left fold of the pairwise NaN-aware
minimum over the ToNumber-coerced arguments. -/
def minFold (x : JsNum) (xs : List JsNum) : Option ℚ :=
  xs.foldl (fun a v => nanLift min a (toNumber v)) (toNumber x)

/-- JavaScript `Math.max(x, ...xs)`. -/
def maxFold (x : JsNum) (xs : List JsNum) : Option ℚ :=
  xs.foldl (fun a v => nanLift max a (toNumber v)) (toNumber x)

/-- JavaScript `vals.reduce((a, b) => a + b, 0)`: `+` coerces `null` to
`0` and turns `undefined` into NaN. -/
def sumFold (vals : List JsNum) : Option ℚ :=
  vals.foldl (fun a v => nanLift (· + ·) a (toNumber v)) (some 0)

/-- Division of a possibly-NaN numerator by a nonzero length: NaN stays
NaN. -/
def nanDiv (a : Option ℚ) (n : ℚ) : Option ℚ :=
  match a with
  | some x => some (x / n)
  | none => none

/-- `toFixed(1)` as the code applies it to a possibly-NaN statistic: NaN
renders `"NaN"`. -/
def jsToFixed1 : Option ℚ → StatVal
  | none => .nan
  | some q => .val (toFixed1 q)

/-- The `{min, max, avg}` object built identically in part_000 lines 57–66
and route.ts lines 55–64: each field is guarded by `vals.length`, giving
the no-data sentinel (`'--'` / `null`) on an empty list and otherwise the
`toFixed(1)` rendering of the statistic, which is `"NaN"` whenever an
`undefined` slot slipped through the filter. -/
def metricStatsOf : List JsNum → MetricStats
  | [] => ⟨.noData, .noData, .noData⟩
  | x :: xs =>
    ⟨jsToFixed1 (minFold x xs), jsToFixed1 (maxFold x xs),
      jsToFixed1 (nanDiv (sumFold (x :: xs)) ((x :: xs).length))⟩

/-- part_000 line 53: `data.filter(r => r.temperature !== null).map(r => r.temperature)` —
in JS `undefined !== null` is true, so omitted temperatures pass the
filter; the `as number` cast is erased at runtime. -/
def tempsOf (data : List SensorData) : List JsNum :=
  (data.filter (fun r => r.temperature ≠ JsNum.null)).map (fun r => r.temperature)

/-- part_000 line 54: the same `!== null` filter for humidity. -/
def humidsOf (data : List SensorData) : List JsNum :=
  (data.filter (fun r => r.humidity ≠ JsNum.null)).map (fun r => r.humidity)

/-- The `calculateStats` function (part_000 lines 52–68). -/
def calculateStats (data : List SensorData) : Stats where
  temp := metricStatsOf (tempsOf data)
  humidity := metricStatsOf (humidsOf data)

/-- JavaScript truthiness of a numeric slot: `null`, `undefined` and `0`
are falsy (NaN, which no stored slot holds, would be too). -/
def truthyNum : JsNum → Bool
  | .num q => q ≠ 0
  | _ => false

/-- route.ts line 51: `results.filter(r => r.temperature).map(r => r.temperature)` —
note the truthiness filter, unlike the client's `!== null`. -/
def apiTempsOf (rows : List SensorData) : List JsNum :=
  (rows.filter (fun r => truthyNum r.temperature)).map (fun r => r.temperature)

/-- route.ts line 52: same truthiness filter for humidity. -/
def apiHumidsOf (rows : List SensorData) : List JsNum :=
  (rows.filter (fun r => truthyNum r.humidity)).map (fun r => r.humidity)

/-- The `stats` object of route.ts lines 54–65. -/
def apiStats (rows : List SensorData) : Stats where
  temp := metricStatsOf (apiTempsOf rows)
  humidity := metricStatsOf (apiHumidsOf rows)

/-- Spec §4.1, worded from the spec (not the code), for the refinement
claims: over the present (actual-number) values of a metric, take the
numeric extrema and the arithmetic mean, each rounded to one decimal
place; all three fields are the no-data sentinel when the filtered
sequence is empty, and a sentinel is never NaN. -/
def specMetricStats (vals : List ℚ) : MetricStats where
  min := match vals.min? with
    | none => .noData
    | some m => .val (toFixed1 m)
  max := match vals.max? with
    | none => .noData
    | some m => .val (toFixed1 m)
  avg := if vals = [] then .noData else .val (toFixed1 (vals.sum / vals.length))

/-- The present (non-absent) temperature values of a sample sequence, per
the spec's `number | absent` data model: `null` and `undefined` are both
absent, a present `0` is included. -/
def numTempsOf (data : List SensorData) : List ℚ :=
  data.filterMap (fun r => asNum r.temperature)

/-- The present (non-absent) humidity values of a sample sequence. -/
def numHumidsOf (data : List SensorData) : List ℚ :=
  data.filterMap (fun r => asNum r.humidity)

/-- Spec §4.1 stats over both metrics, each filtered to its present
values. -/
def specStats (data : List SensorData) : Stats where
  temp := specMetricStats (numTempsOf data)
  humidity := specMetricStats (numHumidsOf data)

/-! ### Light-status normalization -/

/-- JavaScript `s || dflt` on an optional string: the empty string is falsy. -/
def jsOrString (o : Option String) (dflt : String) : String :=
  match o with
  | some s => if s = "" then dflt else s
  | none => dflt

/-- part_000 line 108, fallback branch: `payload.light_value === 0 ? 'dark' : 'bright'`
(strict equality, so an absent `light_value` is not `0`). -/
def lightFromValue (lv : Option ℚ) : String :=
  if lv = some 0 then "dark" else "bright"

/-- part_000 line 108:
`payload.light_status || (payload.light_value === 0 ? 'dark' : 'bright')`. -/
def normalizeLightClient (ls : Option String) (lv : Option ℚ) : String :=
  jsOrString ls (lightFromValue lv)

/-- route.ts line 34: `data.light_status || 'unknown'`. -/
def normalizeLightApi (ls : Option String) : String :=
  jsOrString ls "unknown"

/-! ### Connection lifecycle and the MQTT message handler
(part_000 lines 47, 91–141) -/

/-- The `status` state: `'connecting' | 'online' | 'offline'` (line 47). -/
inductive ConnStatus
  | connecting
  | online
  | offline
deriving DecidableEq, Repr

/-- The initializer `useState('connecting')` (part_000 line 47). -/
def initialStatus : ConnStatus := .connecting

/-- The channel events the component registers handlers for
(lines 95, 129, 134). -/
inductive ChannelEvent
  | connect
  | error
  | close
deriving DecidableEq, Repr

/-- The `setStatus` effect of each handler: `connect → 'online'` (line 97),
`error → 'offline'` (line 131), `close → 'offline'` (line 135). -/
def statusStep : ConnStatus → ChannelEvent → ConnStatus
  | _, .connect => .online
  | _, .error => .offline
  | _, .close => .offline

/-- Running a sequence of channel events from a status. -/
def statusRun (s : ConnStatus) (evs : List ChannelEvent) : ConnStatus :=
  evs.foldl statusStep s

/-- The parsed JSON payload of an inbound `sensors/data` message; every
field may be absent. -/
structure Payload where
  temperature : JsNum
  humidity : JsNum
  light_status : Option String
  light_value : Option ℚ
  timestamp : Option String
deriving DecidableEq, Repr

/-- The component state touched by the message handler: `data`,
`chartData`, `stats`, `status`, `messageCount` (part_000 lines 34–48). -/
structure ClientState where
  data : SensorData
  chartData : List SensorData
  stats : Stats
  status : ConnStatus
  messageCount : ℕ
deriving DecidableEq, Repr

/-- The `useState` initializer for `data` (part_000 lines 34–41). -/
def initialData : SensorData where
  temperature := .null
  humidity := .null
  light_status := "unknown"
  light_value := some 0
  timestamp := "-"
  time := some "-"

/-- The `useState` initializers (part_000 lines 34–48). -/
def initialState : ClientState where
  data := initialData
  chartData := []
  stats := { temp := ⟨.noData, .noData, .noData⟩, humidity := ⟨.noData, .noData, .noData⟩ }
  status := initialStatus
  messageCount := 0

/-- The `newData` object (part_000 lines 105–112): `now` and `nowTime` are the
ingestion-clock locale strings produced at lines 110–111. -/
def normalizeSample (p : Payload) (now nowTime : String) : SensorData where
  temperature := p.temperature
  humidity := p.humidity
  light_status := normalizeLightClient p.light_status p.light_value
  light_value := p.light_value
  timestamp := jsOrString p.timestamp now
  time := some nowTime

/-- The `client.on('message', ...)` handler (part_000 lines 101–127).
`msg = none` models a payload on which `JSON.parse` throws; the returned
`Bool` is whether the catch block logged a parse error. -/
def handleMessage (st : ClientState) (now nowTime : String) (msg : Option Payload) :
    ClientState × Bool :=
  match msg with
  | none => (st, true)
  | some p =>
    let newData := normalizeSample p now nowTime
    let updated := appendWindow st.chartData newData
    ({ st with
        data := newData
        messageCount := st.messageCount + 1
        chartData := updated
        stats := calculateStats updated }, false)

/-! ### The `/api/sensors` route (route.ts) and the client bootstrap
(part_000 lines 71–88) -/

/-- One pivoted row of the external store, as consumed by the Flux query;
`time` and `measurement` model the `_time` and `_measurement` columns,
`time` as an absolute epoch instant. -/
structure InfluxRow where
  time : ℤ
  measurement : String
  temperature : JsNum
  humidity : JsNum
  light_status : Option String
  light_value : Option ℚ
deriving DecidableEq, Repr

/-- The `range(start: -6h)` + `filter(_measurement == "environment")`
stages of the Flux query (route.ts lines 16–17): rows of the measurement
whose `_time` lies in the half-open six-hour window ending at `now`. -/
def fluxFilter (now : ℤ) (rows : List InfluxRow) : List InfluxRow :=
  rows.filter (fun r =>
    r.measurement == "environment" && decide (now - 21600 ≤ r.time) && decide (r.time < now))

/-- The `sort(columns: ["_time"], desc: true)` stage (route.ts line 19). -/
def fluxSortDesc (rows : List InfluxRow) : List InfluxRow :=
  rows.mergeSort (fun a b => decide (b.time ≤ a.time))

/-- The whole query pipeline (route.ts lines 14–21), `limit(n: 500)`
included. -/
def fluxQuery (now : ℤ) (rows : List InfluxRow) : List InfluxRow :=
  (fluxSortDesc (fluxFilter now rows)).take 500

/-- The object pushed per row by the `next` callback (route.ts lines
29–36); `fmtTs`/`fmtTime` are the two locale formatters applied to
`data._time`. -/
def rowToApiSample (fmtTs fmtTime : ℤ → String) (r : InfluxRow) : SensorData where
  timestamp := fmtTs r.time
  time := some (fmtTime r.time)
  temperature := r.temperature
  humidity := r.humidity
  light_status := normalizeLightApi r.light_status
  light_value := r.light_value

/-- The 500-status error body of route.ts line 76. -/
structure ApiError where
  status : ℕ
  error : String
deriving DecidableEq, Repr

/-- The success body of route.ts lines 67–72. -/
structure ApiSuccess where
  current : SensorData
  history : List SensorData
  chartData : List SensorData
  stats : Stats
deriving DecidableEq, Repr

/-- The fallback object of `results[0] || {...}` (route.ts line 68): it carries
only the four listed fields, so `light_value` and `time` are absent. -/
def placeholderCurrent : SensorData where
  temperature := .null
  humidity := .null
  light_status := "unknown"
  light_value := none
  timestamp := "-"
  time := none

/-- The `GET` handler (route.ts lines 9–78). `outcome` is the external
store interaction: `.error` when the query rejects (the `catch` path),
`.ok rows` when `queryRows` streams the store's rows through the query
pipeline. -/
def getResponse (fmtTs fmtTime : ℤ → String) (now : ℤ)
    (outcome : Except String (List InfluxRow)) : Except ApiError ApiSuccess :=
  match outcome with
  | .error _ => .error { status := 500, error := "Failed to fetch data" }
  | .ok rows =>
    let results := (fluxQuery now rows).map (rowToApiSample fmtTs fmtTime)
    .ok { current := results.head?.getD placeholderCurrent
          history := results.take 20
          chartData := results.reverse
          stats := apiStats results }

/-- The JSON body as the client's `fetchHistory` reads it (part_000 lines
74–82): it only tests and uses the `chartData` and `current` keys, absent
on the error body. -/
structure FetchJson where
  chartData : Option (List SensorData)
  current : Option SensorData
  error : Option String
deriving DecidableEq, Repr

/-- The error body `{ error: 'Failed to fetch data' }` as seen by the
client: no `chartData`, no `current`. -/
def errorJson : FetchJson where
  chartData := none
  current := none
  error := some "Failed to fetch data"

/-- The `fetchHistory` function (part_000 lines 72–86): `.error` models the `catch`
(fetch or `res.json()` threw); otherwise the two truthiness guards at
lines 76 and 80 decide which state updates run. -/
def fetchHistoryStep (st : ClientState) (res : Except Unit FetchJson) : ClientState :=
  match res with
  | .error _ => st
  | .ok json =>
    let st1 := match json.chartData with
      | some cd => { st with chartData := cd, stats := calculateStats cd }
      | none => st
    match json.current with
    | some c => { st1 with data := c }
    | none => st1

/-! ### Concrete inputs used to instantiate the theorems -/

/-- The `(· ≤ ·)` order on ℚ is antisymmetric (needed by the library's
`min?`/`max?` characterizations). -/
instance : Std.Antisymm (fun a b : ℚ => a ≤ b) := ⟨fun h h2 => le_antisymm h h2⟩

/-- A concrete full reading. -/
def sampleW : SensorData where
  temperature := .num 25
  humidity := .num 50
  light_status := "bright"
  light_value := some 1
  timestamp := "ts"
  time := some "t"

/-- A concrete light-only reading, as the message handler builds one from
a payload that omits both metrics: the copied fields are `undefined`. -/
def lightOnlyRow : SensorData where
  temperature := .undef
  humidity := .undef
  light_status := "dark"
  light_value := some 0
  timestamp := "ts"
  time := some "t"

/-- A concrete reading whose temperature is present and equal to `0`. -/
def zeroTempRow : SensorData where
  temperature := .num 0
  humidity := .num 40
  light_status := "bright"
  light_value := some 1
  timestamp := "ts"
  time := some "t"

/-- A payload with every field absent (`{}` parsed successfully). -/
def emptyPayload : Payload where
  temperature := .undef
  humidity := .undef
  light_status := none
  light_value := none
  timestamp := none

/-- A store row with `light_value = 0` and no `light_status`. -/
def darkRowNoStatus : InfluxRow where
  time := 0
  measurement := "environment"
  temperature := .undef
  humidity := .undef
  light_status := none
  light_value := some 0

/-- A store row of the `environment` measurement 100 seconds before `now = 0`. -/
def rowW : InfluxRow where
  time := -100
  measurement := "environment"
  temperature := .num 25
  humidity := .num 50
  light_status := some "bright"
  light_value := some 1

/-! ## Library-facing lemmas about the embedded definitions -/

theorem takeLast_length_le (n : ℕ) (l : List α) : (takeLast n l).length ≤ n := by
  simp [takeLast]

theorem takeLast_of_length_le (n : ℕ) (l : List α) (h : l.length ≤ n) :
    takeLast n l = l := by
  simp [takeLast, List.take_of_length_le, h]

theorem takeLast_eq_drop (n : ℕ) (l : List α) :
    takeLast n l = l.drop (l.length - n) := by
  simp only [takeLast]
  rw [List.reverse_take]
  simp

theorem appendWindow_takeLast (l : List SensorData) (s : SensorData) :
    appendWindow (takeLast 100 l) s = takeLast 100 (l ++ [s]) := by
  simp only [appendWindow, takeLast, List.reverse_append, List.reverse_cons,
    List.reverse_nil, List.nil_append, List.reverse_reverse, List.singleton_append,
    List.take_succ_cons, List.take_take]
  norm_num

theorem foldl_appendWindow (msgs init : List SensorData) :
    msgs.foldl appendWindow (takeLast 100 init) = takeLast 100 (init ++ msgs) := by
  induction msgs generalizing init with
  | nil => simp
  | cons x xs ih =>
    simp only [List.foldl_cons]
    rw [appendWindow_takeLast, ih (init ++ [x])]
    simp

theorem windowFold_eq_takeLast (msgs : List SensorData) :
    windowFold msgs = takeLast 100 msgs := by
  have h := foldl_appendWindow msgs []
  simpa [windowFold, takeLast] using h

theorem min?_perm_congr {v1 v2 : List ℚ} (h : v1.Perm v2) : v1.min? = v2.min? := by
  have hiff : ∀ (a : ℚ) (xs : List ℚ), xs.min? = some a ↔ a ∈ xs ∧ ∀ b ∈ xs, a ≤ b :=
    fun a xs =>
      List.min?_eq_some_iff (fun q => le_refl q) (fun x y => min_choice x y)
        (fun _ _ _ => le_min_iff)
  cases hv : v2.min? with
  | none =>
    rw [List.min?_eq_none_iff] at hv
    subst hv
    rw [List.min?_eq_none_iff]
    exact h.eq_nil
  | some a =>
    rw [hiff] at hv
    rw [hiff]
    exact ⟨h.mem_iff.mpr hv.1, fun b hb => hv.2 b (h.mem_iff.mp hb)⟩

theorem max?_perm_congr {v1 v2 : List ℚ} (h : v1.Perm v2) : v1.max? = v2.max? := by
  have hiff : ∀ (a : ℚ) (xs : List ℚ), xs.max? = some a ↔ a ∈ xs ∧ ∀ b ∈ xs, b ≤ a :=
    fun a xs =>
      List.max?_eq_some_iff (fun q => le_refl q) (fun x y => max_choice x y)
        (fun _ _ _ => max_le_iff)
  cases hv : v2.max? with
  | none =>
    rw [List.max?_eq_none_iff] at hv
    subst hv
    rw [List.max?_eq_none_iff]
    exact h.eq_nil
  | some a =>
    rw [hiff] at hv
    rw [hiff]
    exact ⟨h.mem_iff.mpr hv.1, fun b hb => hv.2 b (h.mem_iff.mp hb)⟩

theorem nanLift_none_left (g : ℚ → ℚ → ℚ) (b : Option ℚ) : nanLift g none b = none := by
  cases b <;> rfl

theorem nanLift_none_right (g : ℚ → ℚ → ℚ) (a : Option ℚ) : nanLift g a none = none := by
  cases a <;> rfl

theorem foldl_nanLift_none (g : ℚ → ℚ → ℚ) (xs : List JsNum) :
    xs.foldl (fun a v => nanLift g a (toNumber v)) none = none := by
  induction xs with
  | nil => rfl
  | cons v vs ih =>
    simp only [List.foldl_cons, nanLift_none_left]
    exact ih

theorem foldl_nanLift_undef (g : ℚ → ℚ → ℚ) (a : Option ℚ) {xs : List JsNum}
    (h : JsNum.undef ∈ xs) :
    xs.foldl (fun a v => nanLift g a (toNumber v)) a = none := by
  induction xs generalizing a with
  | nil => simp at h
  | cons v vs ih =>
    rcases List.mem_cons.mp h with h1 | h2
    · rw [← h1]
      simp only [List.foldl_cons, toNumber, nanLift_none_right]
      exact foldl_nanLift_none g vs
    · simp only [List.foldl_cons]
      exact ih _ h2

theorem foldl_nanLift_some (g : ℚ → ℚ → ℚ) (q : ℚ) {xs : List JsNum}
    (h : JsNum.undef ∉ xs) :
    xs.foldl (fun a v => nanLift g a (toNumber v)) (some q)
      = some ((xs.filterMap toNumber).foldl g q) := by
  induction xs generalizing q with
  | nil => rfl
  | cons v vs ih =>
    simp only [List.mem_cons, not_or] at h
    cases v with
    | num p =>
      simp only [List.foldl_cons, List.filterMap_cons, toNumber, nanLift]
      exact ih (g q p) h.2
    | null =>
      simp only [List.foldl_cons, List.filterMap_cons, toNumber, nanLift]
      exact ih (g q 0) h.2
    | undef => exact absurd rfl h.1

theorem minFold_of_undef {x : JsNum} {xs : List JsNum} (h : JsNum.undef ∈ x :: xs) :
    minFold x xs = none := by
  rcases List.mem_cons.mp h with h1 | h2
  · rw [minFold, ← h1]
    exact foldl_nanLift_none min xs
  · exact foldl_nanLift_undef min _ h2

theorem maxFold_of_undef {x : JsNum} {xs : List JsNum} (h : JsNum.undef ∈ x :: xs) :
    maxFold x xs = none := by
  rcases List.mem_cons.mp h with h1 | h2
  · rw [maxFold, ← h1]
    exact foldl_nanLift_none max xs
  · exact foldl_nanLift_undef max _ h2

theorem sumFold_of_undef {vals : List JsNum} (h : JsNum.undef ∈ vals) :
    sumFold vals = none :=
  foldl_nanLift_undef _ _ h

theorem minFold_char (x : JsNum) (xs : List JsNum) (h : JsNum.undef ∉ x :: xs) :
    minFold x xs = ((x :: xs).filterMap toNumber).min? := by
  simp only [List.mem_cons, not_or] at h
  cases x with
  | num p =>
    rw [minFold]
    show List.foldl _ (some p) _ = _
    rw [foldl_nanLift_some min p h.2]
    rfl
  | null =>
    rw [minFold]
    show List.foldl _ (some 0) _ = _
    rw [foldl_nanLift_some min 0 h.2]
    rfl
  | undef => exact absurd rfl h.1

theorem maxFold_char (x : JsNum) (xs : List JsNum) (h : JsNum.undef ∉ x :: xs) :
    maxFold x xs = ((x :: xs).filterMap toNumber).max? := by
  simp only [List.mem_cons, not_or] at h
  cases x with
  | num p =>
    rw [maxFold]
    show List.foldl _ (some p) _ = _
    rw [foldl_nanLift_some max p h.2]
    rfl
  | null =>
    rw [maxFold]
    show List.foldl _ (some 0) _ = _
    rw [foldl_nanLift_some max 0 h.2]
    rfl
  | undef => exact absurd rfl h.1

theorem sumFold_char {vals : List JsNum} (h : JsNum.undef ∉ vals) :
    sumFold vals = some ((vals.filterMap toNumber).sum) := by
  rw [sumFold, foldl_nanLift_some _ 0 h, List.sum_eq_foldl]

theorem metricStatsOf_with_undef {vals : List JsNum} (h : JsNum.undef ∈ vals) :
    metricStatsOf vals = ⟨.nan, .nan, .nan⟩ := by
  cases vals with
  | nil => simp at h
  | cons x xs =>
    simp only [metricStatsOf, minFold_of_undef h, maxFold_of_undef h, sumFold_of_undef h,
      nanDiv, jsToFixed1]

theorem filterMap_toNumber_map_num (qs : List ℚ) :
    (qs.map JsNum.num).filterMap toNumber = qs := by
  induction qs with
  | nil => rfl
  | cons q qs ih => simp [List.filterMap_cons, toNumber, ih]

theorem metricStatsOf_map_num (qs : List ℚ) :
    metricStatsOf (qs.map JsNum.num) = specMetricStats qs := by
  cases qs with
  | nil => rfl
  | cons q qs =>
    have hu : JsNum.undef ∉ JsNum.num q :: qs.map JsNum.num := by simp
    have hfm : (JsNum.num q :: qs.map JsNum.num).filterMap toNumber = q :: qs := by
      simp [List.filterMap_cons, toNumber, filterMap_toNumber_map_num qs]
    have hm : (q :: qs).min? = some (qs.foldl min q) := rfl
    have hx : (q :: qs).max? = some (qs.foldl max q) := rfl
    show metricStatsOf (JsNum.num q :: qs.map JsNum.num) = _
    simp only [metricStatsOf, minFold_char _ _ hu, maxFold_char _ _ hu, sumFold_char hu,
      hfm, specMetricStats, nanDiv, jsToFixed1, List.length_cons, List.length_map]
    simp [hm, hx]

theorem metricStatsOf_perm_congr {v1 v2 : List JsNum} (h : v1.Perm v2) :
    metricStatsOf v1 = metricStatsOf v2 := by
  by_cases hu : JsNum.undef ∈ v1
  · rw [metricStatsOf_with_undef hu, metricStatsOf_with_undef (h.mem_iff.mp hu)]
  · have hu2 : JsNum.undef ∉ v2 := fun hx => hu (h.mem_iff.mpr hx)
    have hfm : (v1.filterMap toNumber).Perm (v2.filterMap toNumber) := h.filterMap _
    have hlen := h.length_eq
    cases v1 with
    | nil =>
      rw [h.symm.eq_nil]
    | cons x xs =>
      cases v2 with
      | nil => exact absurd h.eq_nil (by simp)
      | cons y ys =>
        simp only [metricStatsOf, minFold_char x xs hu, maxFold_char y ys hu2,
          minFold_char y ys hu2, maxFold_char x xs hu, sumFold_char hu, sumFold_char hu2,
          min?_perm_congr hfm, max?_perm_congr hfm, hfm.sum_eq, hlen]

theorem tempsOf_perm {l1 l2 : List SensorData} (h : l1.Perm l2) :
    (tempsOf l1).Perm (tempsOf l2) :=
  (h.filter _).map _

theorem humidsOf_perm {l1 l2 : List SensorData} (h : l1.Perm l2) :
    (humidsOf l1).Perm (humidsOf l2) :=
  (h.filter _).map _

theorem apiTempsOf_perm {l1 l2 : List SensorData} (h : l1.Perm l2) :
    (apiTempsOf l1).Perm (apiTempsOf l2) :=
  (h.filter _).map _

theorem apiHumidsOf_perm {l1 l2 : List SensorData} (h : l1.Perm l2) :
    (apiHumidsOf l1).Perm (apiHumidsOf l2) :=
  (h.filter _).map _

theorem tempsOf_filterMap (l : List SensorData) :
    (tempsOf l).filterMap asNum = numTempsOf l := by
  unfold tempsOf numTempsOf
  simp only [ne_eq, decide_not]
  induction l with
  | nil => rfl
  | cons r l ih =>
    cases hr : r.temperature with
    | num q => simp [List.filter_cons, List.filterMap_cons, hr, asNum, ih, -List.filterMap_map]
    | null => simp [List.filter_cons, List.filterMap_cons, hr, asNum, ih, -List.filterMap_map]
    | undef => simp [List.filter_cons, List.filterMap_cons, hr, asNum, ih, -List.filterMap_map]

theorem humidsOf_filterMap (l : List SensorData) :
    (humidsOf l).filterMap asNum = numHumidsOf l := by
  unfold humidsOf numHumidsOf
  simp only [ne_eq, decide_not]
  induction l with
  | nil => rfl
  | cons r l ih =>
    cases hr : r.humidity with
    | num q => simp [List.filter_cons, List.filterMap_cons, hr, asNum, ih, -List.filterMap_map]
    | null => simp [List.filter_cons, List.filterMap_cons, hr, asNum, ih, -List.filterMap_map]
    | undef => simp [List.filter_cons, List.filterMap_cons, hr, asNum, ih, -List.filterMap_map]

theorem mem_tempsOf_ne_null {l : List SensorData} {v : JsNum} (hv : v ∈ tempsOf l) :
    v ≠ JsNum.null := by
  unfold tempsOf at hv
  obtain ⟨r, hr, hrv⟩ := List.mem_map.mp hv
  rw [← hrv]
  simpa using (List.mem_filter.mp hr).2

theorem mem_humidsOf_ne_null {l : List SensorData} {v : JsNum} (hv : v ∈ humidsOf l) :
    v ≠ JsNum.null := by
  unfold humidsOf at hv
  obtain ⟨r, hr, hrv⟩ := List.mem_map.mp hv
  rw [← hrv]
  simpa using (List.mem_filter.mp hr).2

theorem eq_filterMap_map {vs : List JsNum} (hn : ∀ v ∈ vs, v ≠ JsNum.null)
    (hu : JsNum.undef ∉ vs) : vs = (vs.filterMap asNum).map JsNum.num := by
  induction vs with
  | nil => rfl
  | cons v vs ih =>
    cases v with
    | num q =>
      have := ih (fun w hw => hn w (List.mem_cons_of_mem _ hw))
        (fun hx => hu (List.mem_cons_of_mem _ hx))
      simp only [List.filterMap_cons, asNum, List.map_cons]
      rw [← this]
    | null => exact absurd rfl (hn _ (List.mem_cons_self _ _))
    | undef => exact absurd (List.mem_cons_self _ _) hu

theorem tempsOf_eq_map_num {l : List SensorData} (h : JsNum.undef ∉ tempsOf l) :
    tempsOf l = (numTempsOf l).map JsNum.num := by
  rw [← tempsOf_filterMap l]
  exact eq_filterMap_map (fun v hv => mem_tempsOf_ne_null hv) h

theorem humidsOf_eq_map_num {l : List SensorData} (h : JsNum.undef ∉ humidsOf l) :
    humidsOf l = (numHumidsOf l).map JsNum.num := by
  rw [← humidsOf_filterMap l]
  exact eq_filterMap_map (fun v hv => mem_humidsOf_ne_null hv) h

theorem apiTempsOf_eq_map_num (l : List SensorData) :
    apiTempsOf l = ((numTempsOf l).filter (fun q => decide (q ≠ 0))).map JsNum.num := by
  unfold apiTempsOf numTempsOf
  simp only [ne_eq, decide_not, truthyNum, asNum]
  induction l with
  | nil => rfl
  | cons r l ih =>
    cases hr : r.temperature with
    | num q =>
      by_cases hq : q = 0
      · subst hq
        simp [List.filter_cons, List.filterMap_cons, hr, ih, -List.filterMap_map]
      · simp [List.filter_cons, List.filterMap_cons, hr, hq, ih, -List.filterMap_map]
    | null => simp [List.filter_cons, List.filterMap_cons, hr, ih, -List.filterMap_map]
    | undef => simp [List.filter_cons, List.filterMap_cons, hr, ih, -List.filterMap_map]

theorem apiHumidsOf_eq_map_num (l : List SensorData) :
    apiHumidsOf l = ((numHumidsOf l).filter (fun q => decide (q ≠ 0))).map JsNum.num := by
  unfold apiHumidsOf numHumidsOf
  simp only [ne_eq, decide_not, truthyNum, asNum]
  induction l with
  | nil => rfl
  | cons r l ih =>
    cases hr : r.humidity with
    | num q =>
      by_cases hq : q = 0
      · subst hq
        simp [List.filter_cons, List.filterMap_cons, hr, ih, -List.filterMap_map]
      · simp [List.filter_cons, List.filterMap_cons, hr, hq, ih, -List.filterMap_map]
    | null => simp [List.filter_cons, List.filterMap_cons, hr, ih, -List.filterMap_map]
    | undef => simp [List.filter_cons, List.filterMap_cons, hr, ih, -List.filterMap_map]

theorem fluxSortDesc_sorted (rows : List InfluxRow) :
    List.Pairwise (fun a b : InfluxRow => b.time ≤ a.time) (fluxSortDesc rows) := by
  have h :=
    @List.sorted_mergeSort InfluxRow (fun a b => decide (b.time ≤ a.time))
      (fun a b c hab hbc => by
        simp only [decide_eq_true_eq] at hab hbc ⊢
        omega)
      (fun a b => by simpa using le_total b.time a.time)
      rows
  exact h.imp (fun hab => of_decide_eq_true hab)

theorem fluxQuery_sorted (now : ℤ) (rows : List InfluxRow) :
    List.Pairwise (fun a b : InfluxRow => b.time ≤ a.time) (fluxQuery now rows) := by
  unfold fluxQuery
  exact List.Pairwise.sublist (List.take_sublist _ _) (fluxSortDesc_sorted _)

theorem fluxQuery_length_le (now : ℤ) (rows : List InfluxRow) :
    (fluxQuery now rows).length ≤ 500 := by
  unfold fluxQuery
  exact List.length_take_le _ _

theorem fluxQuery_mem {now : ℤ} {rows : List InfluxRow} {r : InfluxRow}
    (h : r ∈ fluxQuery now rows) :
    r.measurement = "environment" ∧ now - 21600 ≤ r.time ∧ r.time < now := by
  unfold fluxQuery fluxSortDesc at h
  have h1 := (List.take_sublist _ _).subset h
  have h2 := (List.mergeSort_perm (fluxFilter now rows) _).mem_iff.mp h1
  unfold fluxFilter at h2
  simp only [List.mem_filter, Bool.and_eq_true, beq_iff_eq, decide_eq_true_eq] at h2
  exact ⟨h2.2.1.1, h2.2.1.2, h2.2.2⟩

/-! ## Claim theorems -/

/-- C1: for every sequence of appended Samples the chartData window never
exceeds 100 entries; it always equals the suffix of the 100 most recent
appends in arrival order, and after more than 100 appends it is exactly the
100 most recently appended Samples (the earliest appends having been
evicted FIFO). -/
theorem window_bounded_fifo (msgs : List SensorData) :
    (windowFold msgs).length ≤ 100 ∧
    windowFold msgs = takeLast 100 msgs ∧
    (100 < msgs.length →
      windowFold msgs = msgs.drop (msgs.length - 100) ∧
      (windowFold msgs).length = 100) := by
  refine ⟨?_, windowFold_eq_takeLast msgs, ?_⟩
  · rw [windowFold_eq_takeLast]
    exact takeLast_length_le _ _
  · intro h
    rw [windowFold_eq_takeLast, takeLast_eq_drop]
    refine ⟨rfl, ?_⟩
    rw [List.length_drop]
    omega

/-- C1 witness: 101 appends leave a window of length 100 holding the last
100 appends. -/
theorem window_bounded_fifo_witness :
    100 < (List.replicate 101 sampleW).length ∧
    windowFold (List.replicate 101 sampleW)
      = (List.replicate 101 sampleW).drop ((List.replicate 101 sampleW).length - 100) ∧
    (windowFold (List.replicate 101 sampleW)).length = 100 :=
  ⟨by simp, ((window_bounded_fifo (List.replicate 101 sampleW)).2.2 (by simp)).1,
    ((window_bounded_fifo (List.replicate 101 sampleW)).2.2 (by simp)).2⟩

/-- C2 counterexample: the claim's filtering fails on both computations.
The API route's truthiness filter (route.ts line 51) excludes a present
temperature of `0`, reporting the no-data sentinel where the claimed
filtering yields `min = 0`; and the client's `!== null` filter keeps an
omitted (`undefined`) temperature, so a window holding such a reading next
to a `25`-degree one reports `NaN` where the claimed filtering yields
`min = 25`. -/
theorem stats_filter_counterexample :
    (apiStats [zeroTempRow]).temp.min = .noData ∧
    (specStats [zeroTempRow]).temp.min = .val 0 ∧
    StatVal.noData ≠ StatVal.val 0 ∧
    (calculateStats [lightOnlyRow, sampleW]).temp.min = .nan ∧
    (specStats [lightOnlyRow, sampleW]).temp.min = .val 25 ∧
    StatVal.nan ≠ StatVal.val 25 := by
  have h0 : toFixed1 0 = 0 := by norm_num [toFixed1]
  have h25 : toFixed1 25 = 25 := by norm_num [toFixed1]
  refine ⟨by decide, ?_, by decide, by decide, ?_, by decide⟩
  · show StatVal.val (toFixed1 0) = StatVal.val 0
    rw [h0]
  · show StatVal.val (toFixed1 25) = StatVal.val 25
    rw [h25]

/-- C2 amended: the API route's stats computation filters each metric by
JavaScript truthiness — keeping exactly the present values other than `0`
— and returns their minimum, maximum and arithmetic mean rounded to one
decimal place (the no-data sentinel when nothing remains); the client's
`calculateStats` filters out only explicit nulls, so when no omitted
(`undefined`) value is kept it returns the rounded min/max/mean of the
present values — a present `0` included — and when an omitted value is
kept all three of that metric's fields are NaN. -/
theorem stats_filter_present_values (l : List SensorData) :
    (apiStats l).temp = specMetricStats ((numTempsOf l).filter (fun q => decide (q ≠ 0))) ∧
    (apiStats l).humidity = specMetricStats ((numHumidsOf l).filter (fun q => decide (q ≠ 0))) ∧
    (JsNum.undef ∉ tempsOf l → (calculateStats l).temp = specMetricStats (numTempsOf l)) ∧
    (JsNum.undef ∈ tempsOf l → (calculateStats l).temp = ⟨.nan, .nan, .nan⟩) ∧
    (JsNum.undef ∉ humidsOf l → (calculateStats l).humidity = specMetricStats (numHumidsOf l)) ∧
    (JsNum.undef ∈ humidsOf l → (calculateStats l).humidity = ⟨.nan, .nan, .nan⟩) := by
  refine ⟨?_, ?_, fun h => ?_, fun h => ?_, fun h => ?_, fun h => ?_⟩
  · show metricStatsOf (apiTempsOf l) = _
    rw [apiTempsOf_eq_map_num, metricStatsOf_map_num]
  · show metricStatsOf (apiHumidsOf l) = _
    rw [apiHumidsOf_eq_map_num, metricStatsOf_map_num]
  · show metricStatsOf (tempsOf l) = _
    rw [tempsOf_eq_map_num h, metricStatsOf_map_num]
  · exact metricStatsOf_with_undef h
  · show metricStatsOf (humidsOf l) = _
    rw [humidsOf_eq_map_num h, metricStatsOf_map_num]
  · exact metricStatsOf_with_undef h

/-- C2 amended witness: a present `0` temperature window exercises the
undefined-free branches, and a window holding a light-only reading
exercises the NaN branches. -/
theorem stats_filter_present_values_witness :
    (JsNum.undef ∉ tempsOf [zeroTempRow] ∧
      (calculateStats [zeroTempRow]).temp = specMetricStats (numTempsOf [zeroTempRow])) ∧
    (JsNum.undef ∉ humidsOf [zeroTempRow] ∧
      (calculateStats [zeroTempRow]).humidity = specMetricStats (numHumidsOf [zeroTempRow])) ∧
    (JsNum.undef ∈ tempsOf [sampleW, lightOnlyRow] ∧
      (calculateStats [sampleW, lightOnlyRow]).temp = ⟨.nan, .nan, .nan⟩) ∧
    (JsNum.undef ∈ humidsOf [sampleW, lightOnlyRow] ∧
      (calculateStats [sampleW, lightOnlyRow]).humidity = ⟨.nan, .nan, .nan⟩) :=
  ⟨⟨by decide, (stats_filter_present_values [zeroTempRow]).2.2.1 (by decide)⟩,
    ⟨by decide, (stats_filter_present_values [zeroTempRow]).2.2.2.2.1 (by decide)⟩,
    ⟨by decide, (stats_filter_present_values [sampleW, lightOnlyRow]).2.2.2.1 (by decide)⟩,
    ⟨by decide, (stats_filter_present_values [sampleW, lightOnlyRow]).2.2.2.2.2 (by decide)⟩⟩

/-- C3 counterexample: in the MQTT handler a payload with both light
fields absent normalizes to `'bright'`, not the claimed `'unknown'`; in
the history API a row with `light_value = 0` and no `light_status`
normalizes to `'unknown'`, not the claimed `'dark'`. -/
theorem light_default_counterexample :
    (normalizeSample emptyPayload "now" "t").light_status = "bright" ∧
    (normalizeSample emptyPayload "now" "t").light_status ≠ "unknown" ∧
    (rowToApiSample (fun _ => "ts") (fun _ => "t") darkRowNoStatus).light_status = "unknown" ∧
    (rowToApiSample (fun _ => "ts") (fun _ => "t") darkRowNoStatus).light_status ≠ "dark" := by
  refine ⟨by decide, by decide, by decide, by decide⟩

/-- C3 amended: in the MQTT handler, when the payload omits
`light_status`, the status is derived from `light_value` — `0` yields
`'dark'` and any other or absent `light_value` yields `'bright'` (never
`'unknown'`); in the history API route an absent `light_status` always
normalizes to `'unknown'`, with no derivation from `light_value`. -/
theorem light_status_normalization (p : Payload) (now nt : String)
    (fmtTs fmtTime : ℤ → String) (row : InfluxRow) :
    (∀ lv : Option ℚ, normalizeLightClient none lv = lightFromValue lv) ∧
    normalizeLightClient none (some 0) = "dark" ∧
    (∀ q : ℚ, q ≠ 0 → normalizeLightClient none (some q) = "bright") ∧
    normalizeLightClient none none = "bright" ∧
    (p.light_status = none →
      (normalizeSample p now nt).light_status = lightFromValue p.light_value) ∧
    (row.light_status = none →
      (rowToApiSample fmtTs fmtTime row).light_status = "unknown") := by
  refine ⟨fun lv => rfl, rfl, fun q hq => ?_, rfl, fun hp => ?_, fun hrow => ?_⟩
  · simp [normalizeLightClient, jsOrString, lightFromValue, hq]
  · simp [normalizeSample, normalizeLightClient, jsOrString, hp]
  · simp [rowToApiSample, normalizeLightApi, jsOrString, hrow]

/-- C3 amended witness: the derivation at `light_value = 1`, an all-absent
payload, and a statusless row with `light_value = 0`. -/
theorem light_status_normalization_witness :
    ((1 : ℚ) ≠ 0 ∧ normalizeLightClient none (some 1) = "bright") ∧
    (emptyPayload.light_status = none ∧
      (normalizeSample emptyPayload "now" "t").light_status
        = lightFromValue emptyPayload.light_value) ∧
    (darkRowNoStatus.light_status = none ∧
      (rowToApiSample (fun _ => "ts") (fun _ => "t") darkRowNoStatus).light_status
        = "unknown") :=
  ⟨⟨by decide,
      (light_status_normalization emptyPayload "now" "t" (fun _ => "ts") (fun _ => "t")
        darkRowNoStatus).2.2.1 1 (by decide)⟩,
    ⟨rfl,
      (light_status_normalization emptyPayload "now" "t" (fun _ => "ts") (fun _ => "t")
        darkRowNoStatus).2.2.2.2.1 (by decide)⟩,
    ⟨rfl,
      (light_status_normalization emptyPayload "now" "t" (fun _ => "ts") (fun _ => "t")
        darkRowNoStatus).2.2.2.2.2 (by decide)⟩⟩

/-- C4 (code bug): the spec demands the no-data sentinel — never `0`,
never NaN — whenever a metric has no present value, and declares
light-only Samples valid. But a light-only reading arrives with its
metrics omitted (`undefined`), the client's `!== null` filter keeps them,
and all three client stats fields render `"NaN"`; only the API route's
truthiness filter produces the claimed sentinel. This theorem evaluates
both computations at the failing input. -/
theorem nan_stats_on_omitted_metrics :
    numTempsOf [lightOnlyRow] = [] ∧
    numHumidsOf [lightOnlyRow] = [] ∧
    (calculateStats [lightOnlyRow]).temp = ⟨.nan, .nan, .nan⟩ ∧
    (calculateStats [lightOnlyRow]).humidity = ⟨.nan, .nan, .nan⟩ ∧
    StatVal.nan ≠ StatVal.noData ∧
    (apiStats [lightOnlyRow]).temp = ⟨.noData, .noData, .noData⟩ ∧
    (apiStats [lightOnlyRow]).humidity = ⟨.noData, .noData, .noData⟩ :=
  ⟨by decide, by decide, by decide, by decide, by decide, by decide, by decide⟩

/-- C5: a message whose payload fails to parse is dropped with a parse
error reported, leaving the whole component state — message counter,
window, current-sample view and connection status — unchanged. -/
theorem parse_failure_drops_message (st : ClientState) (now nowTime : String) :
    handleMessage st now nowTime none = (st, true) := rfl

/-- C6: the connection status starts at connecting, goes online on
connect, offline on error or close, and ends offline after error and close
in either order. -/
theorem connection_lifecycle :
    initialStatus = ConnStatus.connecting ∧
    (∀ s, statusStep s .connect = .online) ∧
    (∀ s, statusStep s .error = .offline) ∧
    (∀ s, statusStep s .close = .offline) ∧
    (∀ s, statusRun s [.error, .close] = .offline) ∧
    (∀ s, statusRun s [.close, .error] = .offline) := by
  refine ⟨rfl, ?_, ?_, ?_, ?_, ?_⟩ <;> intro s <;> cases s <;> rfl

/-- C7: the history bootstrap query is bounded to the last six hours of
the `environment` measurement, capped at 500 rows, sorted newest-first,
and the response's chartData is exactly that result set reversed into
chronological (oldest-first) order. -/
theorem history_query_bounded_and_reversed (fmtTs fmtTime : ℤ → String) (now : ℤ)
    (rows : List InfluxRow) :
    (fluxQuery now rows).length ≤ 500 ∧
    (∀ r ∈ fluxQuery now rows,
      r.measurement = "environment" ∧ now - 21600 ≤ r.time ∧ r.time < now) ∧
    List.Pairwise (fun a b : InfluxRow => b.time ≤ a.time) (fluxQuery now rows) ∧
    ∃ resp, getResponse fmtTs fmtTime now (.ok rows) = .ok resp ∧
      resp.chartData = ((fluxQuery now rows).reverse).map (rowToApiSample fmtTs fmtTime) ∧
      List.Pairwise (fun a b : InfluxRow => a.time ≤ b.time) ((fluxQuery now rows).reverse) := by
  refine ⟨fluxQuery_length_le now rows, fun r hr => fluxQuery_mem hr,
    fluxQuery_sorted now rows, ⟨_, rfl, ?_, ?_⟩⟩
  · simp [getResponse, List.map_reverse]
  · rw [List.pairwise_reverse]
    exact fluxQuery_sorted now rows

/-- C7 witness: with `now = 0` and a single in-range row, the query keeps
the row and the chartData facts instantiate. -/
theorem history_query_bounded_and_reversed_witness :
    rowW ∈ fluxQuery 0 [rowW] ∧
    (rowW.measurement = "environment" ∧ (0 : ℤ) - 21600 ≤ rowW.time ∧ rowW.time < 0) :=
  ⟨by simp [fluxQuery, fluxSortDesc, fluxFilter, rowW],
    (history_query_bounded_and_reversed (fun _ => "ts") (fun _ => "t") 0 [rowW]).2.1 rowW
      (by simp [fluxQuery, fluxSortDesc, fluxFilter, rowW])⟩

/-- C8: when the history query fails, the route surfaces an explicit
500-error outcome; the client bootstrap leaves its state untouched both
when the fetch throws and when it receives the error body; and live
ingestion still appends normally afterwards. -/
theorem history_failure_all_or_nothing (fmtTs fmtTime : ℤ → String) (now : ℤ)
    (e : String) (st : ClientState) (r : Unit) (nowStr nt : String) (p : Payload) :
    getResponse fmtTs fmtTime now (.error e) = .error ⟨500, "Failed to fetch data"⟩ ∧
    fetchHistoryStep st (.error r) = st ∧
    fetchHistoryStep st (.ok errorJson) = st ∧
    (handleMessage (fetchHistoryStep st (.error r)) nowStr nt (some p)).1.chartData
      = appendWindow st.chartData (normalizeSample p nowStr nt) ∧
    (handleMessage (fetchHistoryStep st (.error r)) nowStr nt (some p)).1.messageCount
      = st.messageCount + 1 :=
  ⟨rfl, rfl, rfl, rfl, rfl⟩

/-- C9: the stats computations are order-independent — permuting the input
sequence leaves every min/max/avg field of both the client and the API
stats unchanged. -/
theorem stats_permutation_invariant (l1 l2 : List SensorData) (h : l1.Perm l2) :
    calculateStats l1 = calculateStats l2 ∧ apiStats l1 = apiStats l2 := by
  constructor
  · have h1 := metricStatsOf_perm_congr (tempsOf_perm h)
    have h2 := metricStatsOf_perm_congr (humidsOf_perm h)
    simp [calculateStats, h1, h2]
  · have h1 := metricStatsOf_perm_congr (apiTempsOf_perm h)
    have h2 := metricStatsOf_perm_congr (apiHumidsOf_perm h)
    simp [apiStats, h1, h2]

/-- C9 witness: swapping two concrete readings leaves both stats objects
unchanged. -/
theorem stats_permutation_invariant_witness :
    ([sampleW, zeroTempRow].Perm [zeroTempRow, sampleW]) ∧
    calculateStats [sampleW, zeroTempRow] = calculateStats [zeroTempRow, sampleW] ∧
    apiStats [sampleW, zeroTempRow] = apiStats [zeroTempRow, sampleW] :=
  ⟨by decide,
    (stats_permutation_invariant [sampleW, zeroTempRow] [zeroTempRow, sampleW] (by decide)).1,
    (stats_permutation_invariant [sampleW, zeroTempRow] [zeroTempRow, sampleW] (by decide)).2⟩

/-- C10: a successful query with zero rows yields a success response whose
current Sample is the fixed placeholder (null temperature and humidity,
light status unknown, timestamp a dash), whose history and chartData are
empty and whose six stats fields are all the null sentinel; and every
successful response's history is the first 20 entries of the newest-first
result set, hence at most the 20 newest rows. -/
theorem empty_result_placeholder_response (fmtTs fmtTime : ℤ → String) (now : ℤ) :
    getResponse fmtTs fmtTime now (.ok [])
      = .ok { current := placeholderCurrent, history := [], chartData := [],
              stats := { temp := ⟨.noData, .noData, .noData⟩, humidity := ⟨.noData, .noData, .noData⟩ } } ∧
    placeholderCurrent.temperature = JsNum.null ∧
    placeholderCurrent.humidity = JsNum.null ∧
    placeholderCurrent.light_status = "unknown" ∧
    placeholderCurrent.timestamp = "-" ∧
    ∀ rows : List InfluxRow, ∃ resp,
      getResponse fmtTs fmtTime now (.ok rows) = .ok resp ∧
      resp.history = ((fluxQuery now rows).map (rowToApiSample fmtTs fmtTime)).take 20 ∧
      resp.history.length ≤ 20 ∧
      List.Pairwise (fun a b : InfluxRow => b.time ≤ a.time) (fluxQuery now rows) := by
  refine ⟨?_, rfl, rfl, rfl, rfl, fun rows => ⟨_, rfl, rfl, ?_, fluxQuery_sorted now rows⟩⟩
  · simp [getResponse, fluxQuery, fluxSortDesc, fluxFilter, apiStats, apiTempsOf,
      apiHumidsOf, metricStatsOf]
  · exact List.length_take_le 20 _

end IotDashboard
